import Mathlib

/-!
Verification development for the preswald headless service layer.

The definitions below are a shallow embedding of
`src/preswald/engine/script_service.py` (class `ScriptService`) and of the
module-level environment detection in `src/preswald/engine/service.py`.
Python dictionaries are modelled as insertion-ordered association lists,
Python values as the inductive `PyVal`, exceptions as `Except String`,
and the class-level singleton (`cls._instance`) as a `World` holding an
optional reference (a natural number standing for object identity) paired
with the instance state.
-/

/-- Model of a Python value as it flows through the script service:
None, bool, int, str, list, dict (string-keyed, insertion ordered). -/
inductive PyVal where
  | none
  | bool (b : Bool)
  | int (n : Int)
  | str (s : String)
  | list (xs : List PyVal)
  | dict (kvs : List (String × PyVal))

/-- Model of a Python value that can serve as a dict key in the component
state store: only hashable scalars ever reach the store (an unhashable
id raises TypeError inside append_component's try block and is caught). -/
inductive PyKey where
  | noneKey
  | bool (b : Bool)
  | int (n : Int)
  | str (s : String)
  deriving DecidableEq

/-- Python hashability: scalars hash; using a list or dict as a dict key
raises TypeError. -/
def PyVal.toKey : PyVal → Option PyKey
  | .none => some PyKey.noneKey
  | .bool b => some (PyKey.bool b)
  | .int n => some (PyKey.int n)
  | .str s => some (PyKey.str s)
  | .list _ => Option.none
  | .dict _ => Option.none

/-- Model of the Python built-in str() conversion that f-string
interpolation performs in `_print_component`. The scalar cases match
CPython exactly (str(None) = "None", str(True) = "True", decimal ints,
strings unchanged). No claim inspects the rendered text of a list or a
dict, so containers are abstracted to fixed tags instead of CPython's
recursive repr-based rendering. -/
def pyStr : PyVal → String
  | .none => "None"
  | .bool b => if b then "True" else "False"
  | .int n => toString n
  | .str s => s
  | .list _ => "<list>"
  | .dict _ => "<dict>"

/-- Python truthiness (`if value:`) for the modelled values. -/
def pyTruthy : PyVal → Bool
  | .none => false
  | .bool b => b
  | .int n => n != 0
  | .str s => s != ""
  | .list xs => xs.length != 0
  | .dict kvs => kvs.length != 0

/-- Python `v == "s"`: equality of a value with a string literal is true
exactly when the value is that string. -/
def pyEqStr (v : PyVal) (s : String) : Bool :=
  match v with
  | .str t => t == s
  | _ => false

/-- Python `len(v)`: defined for str, list and dict; raises TypeError
otherwise (relevant in the table branch of `_print_component`). -/
def pyLen : PyVal → Except String Nat
  | .str s => .ok s.length
  | .list xs => .ok xs.length
  | .dict kvs => .ok kvs.length
  | _ => .error "TypeError: object has no len()"

/-- Python `d.get(k, default)` on a string-keyed dict (first matching key;
a genuine Python dict has unique keys). -/
def dictGetD : List (String × PyVal) → String → PyVal → PyVal
  | [], _, d => d
  | kv :: rest, k, d => if kv.1 == k then kv.2 else dictGetD rest k d

/-- Python `k in d` on a string-keyed dict. -/
def hasKeyD : List (String × PyVal) → String → Bool
  | [], _ => false
  | kv :: rest, k => kv.1 == k || hasKeyD rest k

/-- The guard of the state update in `append_component`:
`isinstance(component, dict) and "id" in component and "value" in component`. -/
def carriesIdValue (c : PyVal) : Bool :=
  match c with
  | PyVal.dict kvs => hasKeyD kvs "id" && hasKeyD kvs "value"
  | _ => false

/-- Upsert into the component state store (`self._component_states[k] = v`):
overwrite in place when the key is present, append otherwise
(Python dict last-write-wins, insertion order preserved). -/
def mapSet : List (PyKey × PyVal) → PyKey → PyVal → List (PyKey × PyVal)
  | [], k, v => [(k, v)]
  | kv :: rest, k, v => if kv.1 = k then (k, v) :: rest else kv :: mapSet rest k v

/-- Lookup with default in the component state store
(`self._component_states.get(k, default)`). -/
def mapGet : List (PyKey × PyVal) → PyKey → PyVal → PyVal
  | [], _, d => d
  | kv :: rest, k, d => if kv.1 = k then kv.2 else mapGet rest k d

/-- Model of the data manager collaborator attached to the service.
Modelled from the spec: the `DataManager` class lives outside the shown
sources (`preswald.engine.managers.data`); per the spec it is constructed
either from a (config path, secrets path) pair — which may fail — or with
no arguments as an "empty/no-op data-access collaborator" fallback, which
the spec treats as always succeeding. `noneDM` is the Python `None` the
constructor `__init__` stores before any initialization. -/
inductive DataMgr where
  | noneDM
  | real (preswald_path : String) (secrets_path : String)
  | empty
  deriving DecidableEq

/-- Ambient effects the service consults: whether constructing
`DataManager(preswald_path, secrets_path)` succeeds (modelled from the
spec, the class being outside the shown sources), and `os.path.exists`. -/
structure PyEnv where
  ctorOk : String → String → Bool
  pathExists : String → Bool

/-- Model of `os.path.dirname`: everything before the final slash
("a/b/c.py" becomes "a/b", a bare filename becomes ""). -/
def dirname (p : String) : String :=
  String.intercalate "/" ((p.splitOn "/").dropLast)

/-- Model of `os.path.join` for the relative two-component joins performed
by `_initialize_data_manager`. -/
def joinPath (a b : String) : String :=
  if a = "" then b else a ++ "/" ++ b

/-- Instance state of `ScriptService` (the fields of `__init__` that the
operations read or write; the never-consulted compatibility fields
`branding_manager`, `websocket_connections`, `script_runners` are
omitted — no operation in the shown source touches them after
construction). -/
structure ServiceState where
  component_states : List (PyKey × PyVal)
  rendered_components : List PyVal
  data_manager : DataMgr
  script_path : Option String
  is_shutting_down : Bool

/-- The state `ScriptService.__init__` establishes. -/
def freshService : ServiceState :=
  { component_states := []
    rendered_components := []
    data_manager := DataMgr.noneDM
    script_path := Option.none
    is_shutting_down := false }

/-- `ScriptService._initialize_data_manager`: derive the two sibling
config paths and construct the data manager; on any construction error,
fall back to the empty data manager (the try/except in the source). -/
def initialize_data_manager (env : PyEnv) (svc : ServiceState) (script_path : String) : ServiceState :=
  let script_dir := dirname script_path
  let preswald_path := joinPath script_dir "preswald.toml"
  let secrets_path := joinPath script_dir "secrets.toml"
  if env.ctorOk preswald_path secrets_path then
    { svc with data_manager := DataMgr.real preswald_path secrets_path }
  else
    { svc with data_manager := DataMgr.empty }

/-- `ScriptService._print_component`: format one console line for a
component. A TypeError from `len(data)` in the table branch propagates to
the caller (append_component), which catches it. -/
def print_component (component : PyVal) : Except String String :=
  match component with
  | .str s => .ok ("[html] " ++ s)
  | .dict kvs =>
      let component_type := dictGetD kvs "type" PyVal.none
      if pyEqStr component_type "text" then
        .ok ("[text] " ++ pyStr (dictGetD kvs "markdown" (PyVal.str "")))
      else if pyEqStr component_type "slider" then
        let label := dictGetD kvs "label" (PyVal.str "")
        let value := dictGetD kvs "value" (PyVal.str "")
        .ok ("[slider] " ++ pyStr label ++ ": " ++ pyStr value)
      else if pyEqStr component_type "plot" then
        .ok "[plot] Plot would be displayed in browser mode"
      else if pyEqStr component_type "table" then
        let data := dictGetD kvs "data" (PyVal.list [])
        let title := dictGetD kvs "title" (PyVal.str "Table")
        match pyLen data with
        | .ok n => .ok ("[table] " ++ pyStr title ++ " (" ++ toString n ++ " rows)")
        | .error e => .error e
      else if pyEqStr component_type "checkbox" then
        let label := dictGetD kvs "label" (PyVal.str "")
        let value := dictGetD kvs "value" (PyVal.bool false)
        .ok ("[checkbox] " ++ pyStr label ++ ": " ++ (if pyTruthy value then "✓" else "✗"))
      else if pyEqStr component_type "selectbox" then
        let label := dictGetD kvs "label" (PyVal.str "")
        let value := dictGetD kvs "value" (PyVal.str "")
        .ok ("[selectbox] " ++ pyStr label ++ ": " ++ pyStr value)
      else
        let component_id := dictGetD kvs "id" (PyVal.str "unknown")
        .ok ("[" ++ pyStr component_type ++ "] Component ID: " ++ pyStr component_id)
  | other => .ok ("[unknown] " ++ pyStr other)

/-- `ScriptService.append_component`: record the component in the rendered
history, print it, and when it is a dict carrying both "id" and "value",
upsert that pair into the component state store. The whole body sits in a
try/except, so the function is total; a formatting error (or an unhashable
id) is caught and logged, and — because the print precedes the state
update inside the same try block — a formatting error also skips the
state update. The returned list holds the console lines printed. -/
def append_component (svc : ServiceState) (component : PyVal) : ServiceState × List String :=
  let svc1 := { svc with rendered_components := svc.rendered_components ++ [component] }
  match print_component component with
  | .error _ => (svc1, [])
  | .ok line =>
      match component with
      | .dict kvs =>
          if hasKeyD kvs "id" && hasKeyD kvs "value" then
            match (dictGetD kvs "id" PyVal.none).toKey with
            | some k =>
                let states2 := mapSet svc1.component_states k (dictGetD kvs "value" PyVal.none)
                ({ svc1 with component_states := states2 }, [line])
            | Option.none => (svc1, [line])
          else (svc1, [line])
      | _ => (svc1, [line])

/-- `ScriptService.get_rendered_components`: the ordered history under the
"rows" key, shape-compatible with the server variant. -/
def get_rendered_components (svc : ServiceState) : PyVal :=
  PyVal.dict [("rows", PyVal.list svc.rendered_components)]

/-- `ScriptService.get_component_state`: delegate to the store with a
default. -/
def get_component_state (svc : ServiceState) (component_id : String) (default : PyVal) : PyVal :=
  mapGet svc.component_states (PyKey.str component_id) default

/-- `ScriptService.clear_components`: empty the rendered history only. -/
def clear_components (svc : ServiceState) : ServiceState :=
  { svc with rendered_components := [] }

/-- `ScriptService.register_client`: stub; returns None (no script
runner) and leaves the state untouched. -/
def register_client (svc : ServiceState) (_client_id : String) : ServiceState × PyVal :=
  (svc, PyVal.none)

/-- `ScriptService.unregister_client`: stub. -/
def unregister_client (svc : ServiceState) (_client_id : String) : ServiceState :=
  svc

/-- `ScriptService.handle_client_message`: when the message's type is
"component_update", upsert every pair of its "states" dict into the store
(keys written through the store's string-key embedding); a non-dict
"states" raises AttributeError at `.items()` before any mutation; every
other message type is ignored. -/
def handle_client_message (svc : ServiceState) (_client_id : String)
    (message : List (String × PyVal)) : Except String ServiceState :=
  if pyEqStr (dictGetD message "type" PyVal.none) "component_update" then
    match dictGetD message "states" (PyVal.dict []) with
    | .dict states =>
        let states2 := states.foldl (fun m kv => mapSet m (PyKey.str kv.1) kv.2) svc.component_states
        .ok { svc with component_states := states2 }
    | _ => .error "AttributeError: object has no attribute items"
  else
    .ok svc

/-- The message `ScriptService.shutdown` logs on every invocation. -/
def shutdownLogMsg : String := "Script service shutting down..."

/-- `ScriptService.shutdown`: set the shutting-down flag and log; the
returned list holds the log events this call emits. There is no guard, so
each call emits the log line again. -/
def shutdown (svc : ServiceState) : ServiceState × List String :=
  ({ svc with is_shutting_down := true }, [shutdownLogMsg])

/-- Python `if script_path:` truthiness on the optional argument of
`initialize` (None and the empty string are falsy). -/
def truthyPath : Option String → Bool
  | some p => p != ""
  | Option.none => false

/-- The class-level singleton state: `cls._instance` as an optional
(reference, state) pair — the Nat is the object identity — plus a counter
for fresh references. -/
structure World where
  inst : Option (Nat × ServiceState)
  nextId : Nat

/-- The class state before any `initialize` call. -/
def emptyWorld : World :=
  { inst := Option.none, nextId := 0 }

/-- The message of the RuntimeError `get_instance` raises when no
singleton exists. -/
def notInitializedMsg : String :=
  "ScriptService not initialized. Did you call initialize()?"

/-- `ScriptService.get_instance`: return the cached singleton's reference,
or raise when none exists. -/
def get_instanceW (w : World) : Except String Nat :=
  match w.inst with
  | some (r, _) => .ok r
  | Option.none => .error notInitializedMsg

/-- `ScriptService.initialize`: when a singleton already exists, return it
unchanged (the script_path argument is never consulted); otherwise
construct a fresh instance and, when a truthy script path was supplied,
set `_script_path` and run `_initialize_data_manager`. The source body
contains no raise on any path, so every branch returns `.ok`. -/
def initializeW (env : PyEnv) (w : World) (script_path : Option String) :
    Except String (World × Nat) :=
  match w.inst with
  | some (r, _) => .ok (w, r)
  | Option.none =>
      let inst1 :=
        match script_path with
        | some p =>
            if p != "" then
              initialize_data_manager env { freshService with script_path := some p } p
            else freshService
        | Option.none => freshService
      .ok ({ inst := some (w.nextId, inst1), nextId := w.nextId + 1 }, w.nextId)

/-- The `script_path` property setter: raise FileNotFoundError when the
path does not exist, otherwise store it and re-run
`_initialize_data_manager`. -/
def script_path_set (env : PyEnv) (svc : ServiceState) (path : String) :
    Except String ServiceState :=
  if env.pathExists path then
    .ok (initialize_data_manager env { svc with script_path := some path } path)
  else
    .error ("Script not found: " ++ path)

/-- The three execution contexts the facade can select. -/
inductive ExecutionContext where
  | Server
  | Headless
  | Virtual
  deriving DecidableEq

/-- One Python stack frame as the detector in `service.py` sees it:
the module name found via `f_globals.get("__name__")` (absent keys give
None, hence Option) and `f_code.co_filename`. -/
structure Frame where
  name : Option String
  filename : String

/-- The while loop over `inspect.currentframe()` / `f_back` in
`service.py`: walk the stack innermost to outermost and stop at the first
frame whose module name is "__main__" and whose source file differs from
the framework's server entry file. -/
def scanFrames (serverEntryFile : String) : List Frame → Bool
  | [] => false
  | f :: rest =>
      if f.name == some "__main__" && f.filename != serverEntryFile then true
      else scanFrames serverEntryFile rest

/-- The module-level environment classification of `service.py`:
IS_PYODIDE from the presence of "pyodide" in sys.modules, IS_HEADLESS from
the PRESWALD_HEADLESS environment variable being "1", the stack scan only
when neither held, and the final three-way selection of the
implementation class. -/
def classify (pyodide : Bool) (headlessEnvVar : Option String)
    (stack : List Frame) (serverEntryFile : String) : ExecutionContext :=
  let IS_PYODIDE := pyodide
  let headless0 := headlessEnvVar == some "1"
  let IS_HEADLESS :=
    if !headless0 && !IS_PYODIDE then scanFrames serverEntryFile stack else headless0
  if IS_PYODIDE then ExecutionContext.Virtual
  else if IS_HEADLESS then ExecutionContext.Headless
  else ExecutionContext.Server

/-- One call against the service as application code can issue it; used to
quantify over arbitrary operation sequences. -/
inductive SvcOp where
  | initializeOp (script_path : Option String)
  | getInstanceOp
  | appendComponentOp (c : PyVal)
  | handleClientMessageOp (client_id : String) (message : List (String × PyVal))
  | shutdownOp
  | clearComponentsOp
  | setScriptPathOp (p : String)
  | registerClientOp (client_id : String)
  | unregisterClientOp (client_id : String)
  | getComponentStateOp (component_id : String) (default : PyVal)

/-- Effect of one operation on the singleton's instance state (reads and
raised exceptions leave the state as it was). -/
def applyInstOp (env : PyEnv) (svc : ServiceState) : SvcOp → ServiceState
  | .appendComponentOp c => (append_component svc c).1
  | .handleClientMessageOp cid msg =>
      match handle_client_message svc cid msg with
      | .ok svc2 => svc2
      | .error _ => svc
  | .shutdownOp => (shutdown svc).1
  | .clearComponentsOp => clear_components svc
  | .setScriptPathOp p =>
      match script_path_set env svc p with
      | .ok svc2 => svc2
      | .error _ => svc
  | .registerClientOp cid => (register_client svc cid).1
  | .unregisterClientOp cid => unregister_client svc cid
  | _ => svc

/-- Effect of one operation on the class-level state: `initialize` may
create the singleton; instance operations act on the instance when one
exists; reads change nothing. -/
def stepW (env : PyEnv) (w : World) : SvcOp → World
  | .initializeOp p =>
      match initializeW env w p with
      | .ok (w2, _) => w2
      | .error _ => w
  | .getInstanceOp => w
  | .getComponentStateOp _ _ => w
  | op =>
      match w.inst with
      | some (r, s) => { w with inst := some (r, applyInstOp env s op) }
      | Option.none => w

/-- One state-writing operation as the correctness claims quantify over
them: an `append_component` call, or a `handle_client_message` call
carrying a component_update message with the given states dict. -/
inductive WriteOp where
  | append (c : PyVal)
  | update (states : List (String × PyVal))

/-- A component_update client message carrying the given states dict. -/
def mkUpdateMsg (states : List (String × PyVal)) : List (String × PyVal) :=
  [("type", PyVal.str "component_update"), ("states", PyVal.dict states)]

/-- Run one state-writing operation against the instance state. -/
def runWriteOp (svc : ServiceState) : WriteOp → ServiceState
  | .append c => (append_component svc c).1
  | .update states =>
      match handle_client_message svc "client" (mkUpdateMsg states) with
      | .ok svc2 => svc2
      | .error _ => svc

/-- Restatement of the spec's notion of "the pairs an operation writes":
an append stores its id/value pair exactly when the component is a dict
carrying both keys, its console line formats without error, and the id is
hashable; a component_update stores every pair of its states dict in
order. -/
def writesOf : WriteOp → List (PyKey × PyVal)
  | .append c =>
      match c with
      | .dict kvs =>
          if hasKeyD kvs "id" && hasKeyD kvs "value" then
            match print_component (PyVal.dict kvs), (dictGetD kvs "id" PyVal.none).toKey with
            | .ok _, some k => [(k, dictGetD kvs "value" PyVal.none)]
            | _, _ => []
          else []
      | _ => []
  | .update states => states.map (fun kv => (PyKey.str kv.1, kv.2))

/-- Restatement of the spec's "value most recently written for a key":
search the write sequence from the most recent (last) entry backwards. -/
def lastWriteFor : List (PyKey × PyVal) → PyKey → Option PyVal
  | [], _ => Option.none
  | kv :: ws, k =>
      match lastWriteFor ws k with
      | some v => some v
      | Option.none => if kv.1 = k then some kv.2 else Option.none

/-- All pairs written by a sequence of operations, in order. -/
def allWrites (ops : List WriteOp) : List (PyKey × PyVal) :=
  (ops.map writesOf).flatten

theorem allWrites_cons (op : WriteOp) (ops : List WriteOp) :
    allWrites (op :: ops) = writesOf op ++ allWrites ops := by
  simp [allWrites]

theorem mapGet_mapSet (m : List (PyKey × PyVal)) (k : PyKey) (v : PyVal)
    (k2 : PyKey) (d : PyVal) :
    mapGet (mapSet m k v) k2 d = if k2 = k then v else mapGet m k2 d := by
  induction m with
  | nil =>
      simp only [mapSet, mapGet]
      by_cases h : k = k2
      · simp [h]
      · simp [h, Ne.symm h]
  | cons kv rest ih =>
      by_cases h : kv.1 = k
      · by_cases h2 : k2 = k
        · subst h2; simp [mapSet, mapGet, h]
        · simp [mapSet, mapGet, h, h2, Ne.symm h2]
      · by_cases h2 : kv.1 = k2
        · have h3 : ¬(k2 = k) := fun hh => h (h2.trans hh)
          simp [mapSet, mapGet, h, h2, h3]
        · simp [mapSet, mapGet, h, h2, ih]

theorem mapGet_foldl_set (ws : List (PyKey × PyVal)) (m : List (PyKey × PyVal))
    (k : PyKey) (d : PyVal) :
    mapGet (ws.foldl (fun m2 kv => mapSet m2 kv.1 kv.2) m) k d
      = (lastWriteFor ws k).getD (mapGet m k d) := by
  induction ws generalizing m with
  | nil => simp [lastWriteFor]
  | cons kv ws ih =>
      simp only [List.foldl_cons, lastWriteFor]
      rw [ih, mapGet_mapSet]
      cases hl : lastWriteFor ws k with
      | some v => simp
      | none =>
          by_cases hk : kv.1 = k
          · rw [if_pos hk, if_pos hk.symm]
            simp
          · rw [if_neg hk, if_neg (fun hh => hk (Eq.symm hh))]

theorem lastWriteFor_mem (ws : List (PyKey × PyVal)) (k : PyKey) (v : PyVal)
    (h : lastWriteFor ws k = some v) : (k, v) ∈ ws := by
  induction ws with
  | nil => simp [lastWriteFor] at h
  | cons kv ws ih =>
      simp only [lastWriteFor] at h
      cases hl : lastWriteFor ws k with
      | some v2 =>
          rw [hl] at h
          simp at h
          exact List.mem_cons_of_mem kv (ih (hl.trans (congrArg some h)))
      | none =>
          rw [hl] at h
          by_cases hk : kv.1 = k
          · rw [if_pos hk] at h
            simp at h
            have hkv : kv = (k, v) := by
              cases kv with
              | mk a b =>
                  simp at hk h ⊢
                  exact ⟨hk, h⟩
            rw [hkv]
            exact List.mem_cons_self (k, v) ws
          · rw [if_neg hk] at h
            simp at h

theorem component_states_append (svc : ServiceState) (c : PyVal) :
    ((append_component svc c).1).component_states
      = (writesOf (WriteOp.append c)).foldl (fun m kv => mapSet m kv.1 kv.2)
          svc.component_states := by
  cases c with
  | dict kvs =>
      simp only [append_component, writesOf]
      cases hp : print_component (PyVal.dict kvs) with
      | error e => simp
      | ok line =>
          by_cases hc : (hasKeyD kvs "id" && hasKeyD kvs "value") = true
          · cases hk : (dictGetD kvs "id" PyVal.none).toKey with
            | some k => simp [hc, hk]
            | none => simp [hc, hk]
          · simp [hc]
  | none => simp [append_component, writesOf, print_component]
  | bool b => simp [append_component, writesOf, print_component]
  | int n => simp [append_component, writesOf, print_component]
  | str s => simp [append_component, writesOf, print_component]
  | list xs => simp [append_component, writesOf, print_component]

theorem component_states_runWriteOp (svc : ServiceState) (op : WriteOp) :
    (runWriteOp svc op).component_states
      = (writesOf op).foldl (fun m kv => mapSet m kv.1 kv.2) svc.component_states := by
  cases op with
  | append c => exact component_states_append svc c
  | update states =>
      have hmsg : handle_client_message svc "client" (mkUpdateMsg states) = Except.ok { svc with component_states := states.foldl (fun m kv => mapSet m (PyKey.str kv.1) kv.2) svc.component_states } := rfl
      simp only [runWriteOp, hmsg, writesOf, List.foldl_map]

theorem component_states_foldl_ops (ops : List WriteOp) (svc : ServiceState) :
    ((ops.foldl runWriteOp svc).component_states)
      = (allWrites ops).foldl (fun m kv => mapSet m kv.1 kv.2) svc.component_states := by
  induction ops generalizing svc with
  | nil => simp [allWrites]
  | cons op ops ih =>
      rw [List.foldl_cons, ih, allWrites_cons, List.foldl_append,
        component_states_runWriteOp]

/-- C1: for every sequence of state-writing operations (append_component
upserting a component's id/value pair, handle_client_message applying a
component_update), get_component_state returns the value most recently
written for that identifier, or the default if no value was ever written
for it; it is a total function (the source catches every exception on the
write path and the read path cannot raise), and any non-default result is
a value that was written for exactly that identifier — the last-write
lookup only ever inspects pairs carrying that identifier, and every value
it can return is a member of the write sequence under that identifier. -/
theorem get_component_state_last_write (ops : List WriteOp) (component_id : String)
    (default : PyVal) :
    get_component_state (ops.foldl runWriteOp freshService) component_id default
      = (lastWriteFor (allWrites ops) (PyKey.str component_id)).getD default
    ∧ (∀ v, lastWriteFor (allWrites ops) (PyKey.str component_id) = some v →
        (PyKey.str component_id, v) ∈ allWrites ops) := by
  constructor
  · rw [get_component_state, component_states_foldl_ops, mapGet_foldl_set]
    rfl
  · intro v hv
    exact lastWriteFor_mem _ _ _ hv

/-- Witness for C1 at a concrete operation sequence: an append writing
("a", 1) followed by a component_update writing ("a", 7) and ("b", 2);
the getter returns 7 for "a", the most recent write. -/
theorem get_component_state_last_write_witness :
    get_component_state (List.foldl runWriteOp freshService [WriteOp.append (PyVal.dict [("type", PyVal.str "slider"), ("id", PyVal.str "a"), ("value", PyVal.int 1)]), WriteOp.update [("a", PyVal.int 7), ("b", PyVal.int 2)]]) "a" PyVal.none = PyVal.int 7
    ∧ (PyKey.str "a", PyVal.int 7) ∈ allWrites [WriteOp.append (PyVal.dict [("type", PyVal.str "slider"), ("id", PyVal.str "a"), ("value", PyVal.int 1)]), WriteOp.update [("a", PyVal.int 7), ("b", PyVal.int 2)]] := by
  constructor
  · exact (get_component_state_last_write [WriteOp.append (PyVal.dict [("type", PyVal.str "slider"), ("id", PyVal.str "a"), ("value", PyVal.int 1)]), WriteOp.update [("a", PyVal.int 7), ("b", PyVal.int 2)]] "a" PyVal.none).1.trans (by rfl)
  · exact (get_component_state_last_write [WriteOp.append (PyVal.dict [("type", PyVal.str "slider"), ("id", PyVal.str "a"), ("value", PyVal.int 1)]), WriteOp.update [("a", PyVal.int 7), ("b", PyVal.int 2)]] "a" PyVal.none).2 (PyVal.int 7) (by rfl)

theorem pyEqStr_eq_true_iff (v : PyVal) (s : String) :
    pyEqStr v s = true ↔ v = PyVal.str s := by
  cases v <;> simp [pyEqStr]

theorem lastWriteFor_map_not_mem (states : List (String × PyVal)) (k : String)
    (h : k ∉ states.map Prod.fst) :
    lastWriteFor (states.map (fun kv => (PyKey.str kv.1, kv.2))) (PyKey.str k)
      = Option.none := by
  induction states with
  | nil => rfl
  | cons kv states ih =>
      simp only [List.map_cons, lastWriteFor]
      rw [ih (fun hm => h (List.mem_cons_of_mem _ hm))]
      have hne : kv.1 ≠ k := fun he => h (he ▸ List.mem_cons_self _ _)
      rw [if_neg]
      intro he
      exact hne (by injection he)

theorem lastWriteFor_map_nodup (states : List (String × PyVal)) (k : String) (v : PyVal)
    (hnd : (states.map Prod.fst).Nodup) (hmem : (k, v) ∈ states) :
    lastWriteFor (states.map (fun kv => (PyKey.str kv.1, kv.2))) (PyKey.str k)
      = some v := by
  induction states with
  | nil => simp at hmem
  | cons kv states ih =>
      simp only [List.map_cons, List.nodup_cons] at hnd
      rcases List.mem_cons.mp hmem with heq | hmem2
      · rw [← heq] at hnd ⊢
        simp only [List.map_cons, lastWriteFor]
        rw [lastWriteFor_map_not_mem states k hnd.1]
        simp
      · simp only [List.map_cons, lastWriteFor]
        rw [ih hnd.2 hmem2]

theorem mapGet_foldl_str_set (states : List (String × PyVal))
    (m : List (PyKey × PyVal)) (k : String) (d : PyVal) :
    mapGet (states.foldl (fun m2 kv => mapSet m2 (PyKey.str kv.1) kv.2) m) (PyKey.str k) d
      = (lastWriteFor (states.map (fun kv => (PyKey.str kv.1, kv.2)))
          (PyKey.str k)).getD (mapGet m (PyKey.str k) d) := by
  have h : states.foldl (fun m2 kv => mapSet m2 (PyKey.str kv.1) kv.2) m = (states.map (fun kv => (PyKey.str kv.1, kv.2))).foldl (fun m2 kv => mapSet m2 kv.1 kv.2) m := by
    rw [List.foldl_map]
  rw [h, mapGet_foldl_set]

/-- C4: for every message whose type discriminator is "component_update",
handle_client_message upserts each key/value pair of the message's states
mapping into the component state store — so get_component_state afterwards
returns those values (for a genuine Python dict, whose keys are distinct) —
and for every message of any other declared type the service state is left
entirely unchanged and no error is raised. -/
theorem handle_client_message_update_or_ignore (svc : ServiceState) (client_id : String)
    (message : List (String × PyVal)) (states : List (String × PyVal)) (d : PyVal) :
    ((dictGetD message "type" PyVal.none = PyVal.str "component_update") →
      (dictGetD message "states" (PyVal.dict []) = PyVal.dict states) →
      handle_client_message svc client_id message = Except.ok { svc with component_states := states.foldl (fun m kv => mapSet m (PyKey.str kv.1) kv.2) svc.component_states }
      ∧ ((states.map Prod.fst).Nodup → ∀ kv ∈ states, get_component_state { svc with component_states := states.foldl (fun m kv => mapSet m (PyKey.str kv.1) kv.2) svc.component_states } kv.1 d = kv.2))
    ∧ ((dictGetD message "type" PyVal.none ≠ PyVal.str "component_update") →
      handle_client_message svc client_id message = Except.ok svc) := by
  constructor
  · intro ht hs
    constructor
    · simp only [handle_client_message, ht, hs]
      simp [pyEqStr]
    · intro hnd kv hkv
      simp only [get_component_state]
      rw [mapGet_foldl_str_set, lastWriteFor_map_nodup states kv.1 kv.2 hnd hkv]
      rfl
  · intro ht
    have hcond : pyEqStr (dictGetD message "type" PyVal.none) "component_update" = false := by
      cases hb : pyEqStr (dictGetD message "type" PyVal.none) "component_update" with
      | false => rfl
      | true => exact absurd ((pyEqStr_eq_true_iff _ _).mp hb) ht
    simp [handle_client_message, hcond]

/-- Witness for C4, the spec's own example: a component_update carrying
states a=1 and b=2 makes the getters return 1 and 2, and a message of a
different type leaves the fresh service untouched with no error. -/
theorem handle_client_message_update_or_ignore_witness :
    (handle_client_message freshService "c" [("type", PyVal.str "component_update"), ("states", PyVal.dict [("a", PyVal.int 1), ("b", PyVal.int 2)])] = Except.ok { freshService with component_states := [("a", PyVal.int 1), ("b", PyVal.int 2)].foldl (fun m kv => mapSet m (PyKey.str kv.1) kv.2) freshService.component_states }
      ∧ get_component_state { freshService with component_states := [("a", PyVal.int 1), ("b", PyVal.int 2)].foldl (fun m kv => mapSet m (PyKey.str kv.1) kv.2) freshService.component_states } "a" PyVal.none = PyVal.int 1
      ∧ get_component_state { freshService with component_states := [("a", PyVal.int 1), ("b", PyVal.int 2)].foldl (fun m kv => mapSet m (PyKey.str kv.1) kv.2) freshService.component_states } "b" PyVal.none = PyVal.int 2)
    ∧ handle_client_message freshService "c" [("type", PyVal.str "ping")] = Except.ok freshService := by
  constructor
  · have T := (handle_client_message_update_or_ignore freshService "c" [("type", PyVal.str "component_update"), ("states", PyVal.dict [("a", PyVal.int 1), ("b", PyVal.int 2)])] [("a", PyVal.int 1), ("b", PyVal.int 2)] PyVal.none).1 (by rfl) (by rfl)
    refine ⟨T.1, ?_, ?_⟩
    · exact T.2 (by decide) ("a", PyVal.int 1) (by simp)
    · exact T.2 (by decide) ("b", PyVal.int 2) (by simp)
  · refine (handle_client_message_update_or_ignore freshService "c" [("type", PyVal.str "ping")] [] PyVal.none).2 ?_
    intro h
    simp [dictGetD] at h

theorem append_component_rendered (svc : ServiceState) (c : PyVal) :
    ((append_component svc c).1).rendered_components
      = svc.rendered_components ++ [c] := by
  cases hp : print_component c with
  | error e => simp [append_component, hp]
  | ok line =>
      cases c with
      | dict kvs =>
          by_cases hc : (hasKeyD kvs "id" && hasKeyD kvs "value") = true
          · cases hk : (dictGetD kvs "id" PyVal.none).toKey with
            | some k => simp [append_component, hp, hc, hk]
            | none => simp [append_component, hp, hc, hk]
          · simp [append_component, hp, hc]
      | none => simp [append_component, hp]
      | bool b => simp [append_component, hp]
      | int n => simp [append_component, hp]
      | str s => simp [append_component, hp]
      | list xs => simp [append_component, hp]

theorem writesOf_append_no_id_value (c : PyVal) (h : carriesIdValue c = false) :
    writesOf (WriteOp.append c) = [] := by
  cases c with
  | dict kvs =>
      simp only [carriesIdValue] at h
      simp [writesOf, h]
  | none => rfl
  | bool b => rfl
  | int n => rfl
  | str s => rfl
  | list xs => rfl

/-- C5: a component that is not a dict, or lacks the "id" key or the
"value" key, leaves the component state store completely unchanged, yet is
still appended to the ordered history that get_rendered_components
exposes under the "rows" key. -/
theorem append_component_missing_id_value (svc : ServiceState) (c : PyVal)
    (h : carriesIdValue c = false) :
    ((append_component svc c).1).component_states = svc.component_states
    ∧ ((append_component svc c).1).rendered_components = svc.rendered_components ++ [c]
    ∧ get_rendered_components (append_component svc c).1 = PyVal.dict [("rows", PyVal.list (svc.rendered_components ++ [c]))] := by
  refine ⟨?_, append_component_rendered svc c, ?_⟩
  · rw [component_states_append, writesOf_append_no_id_value c h]
    rfl
  · rw [get_rendered_components, append_component_rendered svc c]

/-- Witness for C5: a slider component carrying no id and no value is
recorded in the history of the fresh service but writes no state. -/
theorem append_component_missing_id_value_witness :
    carriesIdValue (PyVal.dict [("type", PyVal.str "slider")]) = false
    ∧ ((append_component freshService (PyVal.dict [("type", PyVal.str "slider")])).1).component_states = freshService.component_states
    ∧ ((append_component freshService (PyVal.dict [("type", PyVal.str "slider")])).1).rendered_components = freshService.rendered_components ++ [PyVal.dict [("type", PyVal.str "slider")]]
    ∧ get_rendered_components (append_component freshService (PyVal.dict [("type", PyVal.str "slider")])).1 = PyVal.dict [("rows", PyVal.list (freshService.rendered_components ++ [PyVal.dict [("type", PyVal.str "slider")]]))] :=
  ⟨rfl, append_component_missing_id_value freshService (PyVal.dict [("type", PyVal.str "slider")]) rfl⟩

/-- C6: headless console formatting is exact per component kind — the
slider component with label "Speed" and value 5 formats to exactly
"[slider] Speed: 5", and the table component titled "Results" with three
data rows formats to exactly "[table] Results (3 rows)", a single line
that carries only the row count, never the row contents. -/
theorem print_component_exact_format :
    print_component (PyVal.dict [("type", PyVal.str "slider"), ("label", PyVal.str "Speed"), ("value", PyVal.int 5)]) = Except.ok "[slider] Speed: 5"
    ∧ print_component (PyVal.dict [("type", PyVal.str "table"), ("title", PyVal.str "Results"), ("data", PyVal.list [PyVal.int 1, PyVal.int 2, PyVal.int 3])]) = Except.ok "[table] Results (3 rows)" :=
  ⟨rfl, rfl⟩

theorem inst_ref_stepW (env : PyEnv) (w : World) (op : SvcOp) (r : Nat)
    (s : ServiceState) (h : w.inst = some (r, s)) :
    ∃ s2, (stepW env w op).inst = some (r, s2) := by
  cases op with
  | initializeOp p => exact ⟨s, by simp [stepW, initializeW, h]⟩
  | getInstanceOp => exact ⟨s, by simp [stepW, h]⟩
  | getComponentStateOp cid d => exact ⟨s, by simp [stepW, h]⟩
  | appendComponentOp c =>
      exact ⟨applyInstOp env s (SvcOp.appendComponentOp c), by simp [stepW, h]⟩
  | handleClientMessageOp cid msg =>
      exact ⟨applyInstOp env s (SvcOp.handleClientMessageOp cid msg), by simp [stepW, h]⟩
  | shutdownOp => exact ⟨applyInstOp env s SvcOp.shutdownOp, by simp [stepW, h]⟩
  | clearComponentsOp => exact ⟨applyInstOp env s SvcOp.clearComponentsOp, by simp [stepW, h]⟩
  | setScriptPathOp p =>
      exact ⟨applyInstOp env s (SvcOp.setScriptPathOp p), by simp [stepW, h]⟩
  | registerClientOp cid =>
      exact ⟨applyInstOp env s (SvcOp.registerClientOp cid), by simp [stepW, h]⟩
  | unregisterClientOp cid =>
      exact ⟨applyInstOp env s (SvcOp.unregisterClientOp cid), by simp [stepW, h]⟩

theorem inst_ref_foldl (env : PyEnv) (ops : List SvcOp) (w : World) (r : Nat)
    (s : ServiceState) (h : w.inst = some (r, s)) :
    ∃ s2, (ops.foldl (stepW env) w).inst = some (r, s2) := by
  induction ops generalizing w s with
  | nil => exact ⟨s, h⟩
  | cons op ops ih =>
      obtain ⟨s2, h2⟩ := inst_ref_stepW env w op r s h
      exact ih (stepW env w op) s2 h2

/-- C2: get_instance before any initialize raises the NotInitialized
RuntimeError (it never returns a dummy instance), the instance initialize
hands back is exactly the one get_instance then returns, and once a
singleton exists every get_instance call — after any sequence of further
service operations — returns the identical reference. -/
theorem get_instance_singleton (env : PyEnv) (w : World) (r : Nat) (s : ServiceState)
    (ops : List SvcOp) :
    (∀ w0 : World, w0.inst = Option.none → get_instanceW w0 = Except.error notInitializedMsg)
    ∧ (∀ p w2 r2, initializeW env w p = Except.ok (w2, r2) → get_instanceW w2 = Except.ok r2)
    ∧ (w.inst = some (r, s) → get_instanceW (ops.foldl (stepW env) w) = Except.ok r) := by
  refine ⟨?_, ?_, ?_⟩
  · intro w0 h0
    simp [get_instanceW, h0]
  · intro p w2 r2 h2
    cases hw : w.inst with
    | some pr =>
        obtain ⟨r0, s0⟩ := pr
        simp only [initializeW, hw] at h2
        simp only [Except.ok.injEq, Prod.mk.injEq] at h2
        obtain ⟨h2a, h2b⟩ := h2
        rw [← h2a, ← h2b]
        simp [get_instanceW, hw]
    | none =>
        simp only [initializeW, hw] at h2
        simp only [Except.ok.injEq, Prod.mk.injEq] at h2
        obtain ⟨h2a, h2b⟩ := h2
        rw [← h2a, ← h2b]
        simp [get_instanceW]
  · intro h
    obtain ⟨s2, h2⟩ := inst_ref_foldl env ops w r s h
    simp [get_instanceW, h2]

/-- Witness for C2 at concrete inputs: the empty class state errors, the
singleton created by initialize is the one get_instance returns, and the
reference survives a shutdown followed by an append. -/
theorem get_instance_singleton_witness :
    get_instanceW emptyWorld = Except.error notInitializedMsg
    ∧ get_instanceW { inst := some (0, freshService), nextId := 1 } = Except.ok 0
    ∧ get_instanceW (List.foldl (stepW { ctorOk := fun _ _ => true, pathExists := fun _ => true }) { inst := some (0, freshService), nextId := 1 } [SvcOp.shutdownOp, SvcOp.appendComponentOp (PyVal.int 3)]) = Except.ok 0 := by
  refine ⟨?_, ?_, ?_⟩
  · exact (get_instance_singleton { ctorOk := fun _ _ => true, pathExists := fun _ => true } emptyWorld 0 freshService []).1 emptyWorld rfl
  · exact (get_instance_singleton { ctorOk := fun _ _ => true, pathExists := fun _ => true } emptyWorld 0 freshService []).2.1 Option.none { inst := some (0, freshService), nextId := 1 } 0 rfl
  · exact (get_instance_singleton { ctorOk := fun _ _ => true, pathExists := fun _ => true } { inst := some (0, freshService), nextId := 1 } 0 freshService [SvcOp.shutdownOp, SvcOp.appendComponentOp (PyVal.int 3)]).2.2 rfl

/-- C3: environment classification follows the stated priority order — the
pyodide marker yields Virtual before any headless signal is consulted;
otherwise the PRESWALD_HEADLESS="1" signal yields Headless; otherwise the
call stack, walked innermost to outermost, decides: a frame whose module
name is __main__ and whose source file differs from the framework's server
entry file yields Headless, and in every other (ambiguous) case the result
defaults to Server. -/
theorem classify_priority (pyodide : Bool) (envVar : Option String)
    (stack : List Frame) (entry : String) :
    (pyodide = true → classify pyodide envVar stack entry = ExecutionContext.Virtual)
    ∧ (pyodide = false → envVar = some "1" →
        classify pyodide envVar stack entry = ExecutionContext.Headless)
    ∧ (pyodide = false → envVar ≠ some "1" →
        classify pyodide envVar stack entry
          = (if scanFrames entry stack then ExecutionContext.Headless else ExecutionContext.Server))
    ∧ (scanFrames entry stack = true
        ↔ ∃ f ∈ stack, f.name = some "__main__" ∧ f.filename ≠ entry) := by
  refine ⟨?_, ?_, ?_, ?_⟩
  · intro hp
    subst hp
    simp [classify]
  · intro hp he
    subst hp
    subst he
    simp [classify]
  · intro hp he
    subst hp
    have he2 : (envVar == some "1") = false := by
      cases hres : envVar == some "1" with
      | false => rfl
      | true => exact absurd (eq_of_beq hres) he
    simp [classify, he2]
  · induction stack with
    | nil => simp [scanFrames]
    | cons f rest ih =>
        by_cases hc : (f.name == some "__main__" && f.filename != entry) = true
        · simp only [scanFrames, if_pos hc]
          simp only [Bool.and_eq_true, beq_iff_eq, bne_iff_ne] at hc
          simp only [true_iff]
          exact ⟨f, List.mem_cons_self f rest, hc.1, hc.2⟩
        · simp only [scanFrames, if_neg hc]
          rw [ih]
          simp only [Bool.and_eq_true, beq_iff_eq, bne_iff_ne] at hc
          constructor
          · rintro ⟨f2, hm, hp2⟩
            exact ⟨f2, List.mem_cons_of_mem f hm, hp2⟩
          · rintro ⟨f2, hm, hp2⟩
            rcases List.mem_cons.mp hm with heq | hm2
            · exact absurd (heq ▸ hp2) (fun hcc => hc ⟨hcc.1, hcc.2⟩)
            · exact ⟨f2, hm2, hp2⟩

/-- Witness for C3 at concrete signals: pyodide wins even with the
headless variable set; the headless variable wins next; a direct-script
stack frame yields Headless through the scan; an empty stack is the
ambiguous case and yields Server. -/
theorem classify_priority_witness :
    classify true (some "1") [] "m.py" = ExecutionContext.Virtual
    ∧ classify false (some "1") [] "m.py" = ExecutionContext.Headless
    ∧ classify false Option.none [{ name := some "__main__", filename := "app.py" }] "m.py" = (if scanFrames "m.py" [{ name := some "__main__", filename := "app.py" }] then ExecutionContext.Headless else ExecutionContext.Server)
    ∧ classify false Option.none [] "m.py" = (if scanFrames "m.py" [] then ExecutionContext.Headless else ExecutionContext.Server)
    ∧ (scanFrames "m.py" [] = true ↔ ∃ f ∈ ([] : List Frame), f.name = some "__main__" ∧ f.filename ≠ "m.py") := by
  refine ⟨?_, ?_, ?_, ?_, ?_⟩
  · exact (classify_priority true (some "1") [] "m.py").1 rfl
  · exact (classify_priority false (some "1") [] "m.py").2.1 rfl rfl
  · exact (classify_priority false Option.none [{ name := some "__main__", filename := "app.py" }] "m.py").2.2.1 rfl (by simp)
  · exact (classify_priority false Option.none [] "m.py").2.2.1 rfl (by simp)
  · exact (classify_priority false Option.none [] "m.py").2.2.2

/-- C7: an error while constructing the data-access collaborator during
initialize(scriptPath) is caught inside initialize — every branch of the
embedded initialize returns Except.ok, never an error — and the returned
singleton carries the empty/no-op data manager substituted by the
fallback, still answers register_client with the no-session None reply,
and still records components through append_component. -/
theorem initialize_config_failure_soft (env : PyEnv) (p : String) (cid : String) (c : PyVal)
    (hp : p ≠ "")
    (hfail : env.ctorOk (joinPath (dirname p) "preswald.toml") (joinPath (dirname p) "secrets.toml") = false) :
    initializeW env emptyWorld (some p) = Except.ok ({ inst := some (0, { freshService with script_path := some p, data_manager := DataMgr.empty }), nextId := 1 }, 0)
    ∧ register_client { freshService with script_path := some p, data_manager := DataMgr.empty } cid = ({ freshService with script_path := some p, data_manager := DataMgr.empty }, PyVal.none)
    ∧ ((append_component { freshService with script_path := some p, data_manager := DataMgr.empty } c).1).rendered_components = [c] := by
  have hb : (p != "") = true := by simp [hp]
  refine ⟨?_, rfl, ?_⟩
  · simp [initializeW, emptyWorld, hb, initialize_data_manager, hfail]
  · rw [append_component_rendered]
    simp [freshService]

/-- Witness for C7: a concrete environment whose data manager constructor
always fails still yields a working singleton with the empty collaborator. -/
theorem initialize_config_failure_soft_witness :
    initializeW { ctorOk := fun _ _ => false, pathExists := fun _ => true } emptyWorld (some "app/script.py") = Except.ok ({ inst := some (0, { freshService with script_path := some "app/script.py", data_manager := DataMgr.empty }), nextId := 1 }, 0)
    ∧ register_client { freshService with script_path := some "app/script.py", data_manager := DataMgr.empty } "c1" = ({ freshService with script_path := some "app/script.py", data_manager := DataMgr.empty }, PyVal.none)
    ∧ ((append_component { freshService with script_path := some "app/script.py", data_manager := DataMgr.empty } (PyVal.str "hi")).1).rendered_components = [PyVal.str "hi"] :=
  initialize_config_failure_soft { ctorOk := fun _ _ => false, pathExists := fun _ => true } "app/script.py" "c1" (PyVal.str "hi") (by decide) rfl

/-- C8 counterexample: with a concrete environment, initialize creates the
singleton with reference 0 and shutdown marks it shutting down; the
subsequent initialize call does NOT fail — it returns Except.ok carrying
the stale pre-shutdown reference 0 with the class state unchanged — so
the claim that re-initialization after shutdown fails loudly is false on
the code. -/
theorem initialize_after_shutdown_cx :
    initializeW { ctorOk := fun _ _ => true, pathExists := fun _ => true } emptyWorld Option.none = Except.ok ({ inst := some (0, freshService), nextId := 1 }, 0)
    ∧ stepW { ctorOk := fun _ _ => true, pathExists := fun _ => true } { inst := some (0, freshService), nextId := 1 } SvcOp.shutdownOp = { inst := some (0, { freshService with is_shutting_down := true }), nextId := 1 }
    ∧ initializeW { ctorOk := fun _ _ => true, pathExists := fun _ => true } { inst := some (0, { freshService with is_shutting_down := true }), nextId := 1 } (some "stale.py") = Except.ok ({ inst := some (0, { freshService with is_shutting_down := true }), nextId := 1 }, 0) :=
  ⟨rfl, rfl, rfl⟩

/-- C8 amended: calling initialize again after shutdown does not raise; it
silently returns the stale pre-shutdown singleton unchanged — the same
reference with the shutting-down flag still set — ignoring the supplied
script path. -/
theorem initialize_after_shutdown_returns_stale (env : PyEnv) (w : World) (r : Nat)
    (s : ServiceState) (p : Option String) (h : w.inst = some (r, s))
    (hs : s.is_shutting_down = true) :
    initializeW env w p = Except.ok (w, r) := by
  simp [initializeW, h]

/-- Witness for the amended C8 at the concrete post-shutdown class state. -/
theorem initialize_after_shutdown_returns_stale_witness :
    ({ freshService with is_shutting_down := true } : ServiceState).is_shutting_down = true
    ∧ initializeW { ctorOk := fun _ _ => true, pathExists := fun _ => true } { inst := some (0, { freshService with is_shutting_down := true }), nextId := 1 } (some "stale.py") = Except.ok ({ inst := some (0, { freshService with is_shutting_down := true }), nextId := 1 }, 0) :=
  ⟨rfl, initialize_after_shutdown_returns_stale { ctorOk := fun _ _ => true, pathExists := fun _ => true } { inst := some (0, { freshService with is_shutting_down := true }), nextId := 1 } 0 { freshService with is_shutting_down := true } (some "stale.py") rfl rfl⟩

/-- C9 counterexample: shutdown has no emitted-once guard — each call logs
the shutdown line again, so two consecutive calls on the fresh service
produce the log event twice, refuting "at most once across the two
calls". -/
theorem shutdown_twice_logs_twice_cx :
    (shutdown freshService).2 ++ (shutdown (shutdown freshService).1).2 = [shutdownLogMsg, shutdownLogMsg]
    ∧ ¬(((shutdown freshService).2 ++ (shutdown (shutdown freshService).1).2).length ≤ 1) :=
  ⟨rfl, by decide⟩

/-- C9 amended: shutdown called twice never raises (it is a total state
transition), leaves the service in the shutting-down state, the second
call changes nothing further, and the log event is emitted exactly once
per call — hence twice across the two calls, not at most once. -/
theorem shutdown_twice_state_idempotent (svc : ServiceState) :
    (shutdown svc).1.is_shutting_down = true
    ∧ (shutdown (shutdown svc).1).1 = (shutdown svc).1
    ∧ (shutdown svc).2 = [shutdownLogMsg]
    ∧ (shutdown (shutdown svc).1).2 = [shutdownLogMsg] :=
  ⟨rfl, rfl, rfl, rfl⟩

/-- C10: when a singleton already exists, initialize returns it unchanged:
the result is identical under any two ambient environments (hence no
existence check on the supplied path is performed), the supplied script
path is ignored, and the class state — so the instance's script path,
data manager, component states and rendered history — is untouched; by
contrast, the script_path property setter raises FileNotFoundError for a
nonexistent path. -/
theorem initialize_existing_ignores_path (env env2 : PyEnv) (w : World) (r : Nat)
    (s : ServiceState) (p : Option String) (path : String)
    (h : w.inst = some (r, s)) (hne : env.pathExists path = false) :
    initializeW env w p = Except.ok (w, r)
    ∧ initializeW env w p = initializeW env2 w p
    ∧ script_path_set env s path = Except.error ("Script not found: " ++ path) := by
  refine ⟨by simp [initializeW, h], ?_, by simp [script_path_set, hne]⟩
  simp [initializeW, h]

/-- Witness for C10: a world holding the fresh singleton, one environment
where no path exists and one where every path exists. -/
theorem initialize_existing_ignores_path_witness :
    initializeW { ctorOk := fun _ _ => true, pathExists := fun _ => false } { inst := some (0, freshService), nextId := 1 } (some "missing.py") = Except.ok ({ inst := some (0, freshService), nextId := 1 }, 0)
    ∧ initializeW { ctorOk := fun _ _ => true, pathExists := fun _ => false } { inst := some (0, freshService), nextId := 1 } (some "missing.py") = initializeW { ctorOk := fun _ _ => false, pathExists := fun _ => true } { inst := some (0, freshService), nextId := 1 } (some "missing.py")
    ∧ script_path_set { ctorOk := fun _ _ => true, pathExists := fun _ => false } freshService "missing.py" = Except.error ("Script not found: " ++ "missing.py") :=
  initialize_existing_ignores_path { ctorOk := fun _ _ => true, pathExists := fun _ => false } { ctorOk := fun _ _ => false, pathExists := fun _ => true } { inst := some (0, freshService), nextId := 1 } 0 freshService (some "missing.py") "missing.py" rfl rfl
